import Mathlib

/-!
Verification development for the shipping-bill extraction pipeline
(`succes.py`).  The Python backend functions `clean_number`,
`flatten_to_excel_rows` and the record-assembly part of `process_files`
are embedded as executable Lean definitions over an explicit value model.
Python floats are modelled as exact rationals; the custom rational type
`Q` below is kept in normalized form (positive denominator, reduced by the
gcd), so that structural equality coincides with numeric equality and all
arithmetic evaluates inside the kernel.
-/

set_option maxRecDepth 4000

namespace ShippingBill

/-- Exact rational number: `num / den`.  Every value produced by the
operations below is normalized (`den` positive, `gcd |num| den = 1`), so
structural equality is numeric equality. -/
structure Q where
  num : ℤ
  den : ℕ
deriving DecidableEq

/-- Normalizes `n / d` for a natural denominator; `d = 0` never occurs in
the pipeline (all divisions are guarded) and is mapped to `0`. -/
def Q.norm (n : ℤ) (d : ℕ) : Q :=
  if d = 0 then ⟨0, 1⟩
  else
    let g := Nat.gcd n.natAbs d
    ⟨n.tdiv (g : ℤ), d / g⟩

/-- Normalizes `n / d` for an integer denominator. -/
def Q.normInt (n d : ℤ) : Q :=
  if d < 0 then Q.norm (-n) (-d).toNat else Q.norm n d.toNat

/-- The rational `n / 1` for a natural `n`. -/
def Q.ofNat (n : ℕ) : Q := ⟨(n : ℤ), 1⟩

/-- The rational `0`. -/
def Q.zero : Q := ⟨0, 1⟩

/-- Addition. -/
def Q.add (a b : Q) : Q :=
  Q.norm (a.num * (b.den : ℤ) + b.num * (a.den : ℤ)) (a.den * b.den)

/-- Multiplication. -/
def Q.mul (a b : Q) : Q := Q.norm (a.num * b.num) (a.den * b.den)

/-- Division (`b = 0` never reached unguarded in the pipeline). -/
def Q.div (a b : Q) : Q := Q.normInt (a.num * (b.den : ℤ)) ((a.den : ℤ) * b.num)

/-- Negation. -/
def Q.neg (a : Q) : Q := ⟨-a.num, a.den⟩

/-- Strict positivity test (`x > 0` on a normalized value). -/
def Q.isPos (a : Q) : Bool := 0 < a.num

/-- The rational-valued semantics of `Q`, tying the executable
representation to the mathematical rationals. -/
def Q.val (a : Q) : ℚ := (a.num : ℚ) / (a.den : ℚ)

/-- Model of the JSON scalar values reaching `clean_number`: Python `None`,
a numeric value (int/float, modelled as an exact rational), or a string. -/
inductive PyVal where
  | none : PyVal
  | num : Q → PyVal
  | str : String → PyVal
deriving DecidableEq

/-- Python truthiness test `not value` for the values above:
`None`, `0`/`0.0` and `""` are falsy. -/
def falsy : PyVal → Bool
  | PyVal.none => true
  | PyVal.num q => q = Q.zero
  | PyVal.str s => s = ""

/-- Embeds `re.sub(r'[^\d.-]', '', str(value))`: keep only digits, the
decimal point and the minus sign. -/
def stripNonNumeric (s : String) : String :=
  String.mk (s.toList.filter (fun c => c.isDigit || c = '.' || c = '-'))

/-- Numeric value of a digit sequence, most significant first. -/
def digitsToNat (l : List Char) : ℕ :=
  l.foldl (fun n c => 10 * n + (c.toNat - '0'.toNat)) 0

/-- Splits a character list at every `'.'` (the decimal-point separators),
keeping empty segments, so the number of segments is one more than the
number of decimal points. -/
def splitDot : List Char → List (List Char)
  | [] => [[]]
  | c :: rest =>
      let r := splitDot rest
      if c = '.' then [] :: r
      else
        match r with
        | h :: t => (c :: h) :: t
        | [] => [[c]]

/-- Decimal value of integer digits `ip` and fraction digits `fp`, with the
given sign. -/
def qOfParts (neg : Bool) (ip fp : List Char) : Q :=
  let n : ℕ := digitsToNat ip * 10 ^ fp.length + digitsToNat fp
  Q.norm (if neg then -(n : ℤ) else (n : ℤ)) (10 ^ fp.length)

/-- Part of `float` parsing after the optional leading minus sign, on the
alphabet `0-9 . -`: fails on any embedded minus sign, on more than one
decimal point, and when no digit is present. -/
def parseDigitsChars (neg : Bool) (t : List Char) : Option Q :=
  if t.any (fun c => c = '-') then Option.none
  else
    match splitDot t with
    | [ip] =>
        if ip.all Char.isDigit ∧ ip ≠ [] then some (qOfParts neg ip []) else Option.none
    | [ip, fp] =>
        if (ip ++ fp).all Char.isDigit ∧ ip ++ fp ≠ [] then some (qOfParts neg ip fp)
        else Option.none
    | _ => Option.none

/-- Embeds Python `float(clean_str)` on a string already restricted to the
alphabet `0-9 . -` (the image of `stripNonNumeric`): an optional leading
minus sign, then digits with at most one decimal point and at least one
digit; anything else fails (`None`). -/
def parseFloatStripped (s : String) : Option Q :=
  match s.toList with
  | '-' :: rest => parseDigitsChars true rest
  | cs => parseDigitsChars false cs

/-- Embeds `clean_number` (succes.py, lines 81-86) on its in-range paths:
falsy input returns 0, numeric input is returned verbatim, a string is
stripped of non-numeric characters and parsed, with 0 on any parse
failure.  This coarse model collapses the two `float(...)` conversions to
exact rationals; `clean_number_checked` below keeps their double-overflow
behaviour (the uncaught `OverflowError` of line 83 and the infinite result
of `float` on an overflowing decimal string). -/
def clean_number (v : PyVal) : Q :=
  if falsy v then Q.zero
  else
    match v with
    | PyVal.none => Q.zero
    | PyVal.num q => q
    | PyVal.str s => (parseFloatStripped (stripNonNumeric s)).getD Q.zero

example : clean_number (PyVal.str "₹1,234.50") = ⟨2469, 2⟩ := by decide
example : clean_number (PyVal.str "N/A") = Q.zero := by decide
example : clean_number (PyVal.str "1-2") = Q.zero := by decide
example : clean_number (PyVal.str "1.2.3") = Q.zero := by decide
example : clean_number (PyVal.str "-.5") = ⟨-1, 2⟩ := by decide
example : clean_number (PyVal.str "12.") = ⟨12, 1⟩ := by decide
example : clean_number (PyVal.str "") = Q.zero := by decide
example : clean_number PyVal.none = Q.zero := by decide

/-- A Python `float` (IEEE double) result: finite (value kept exact),
infinite, or not-a-number. -/
inductive PyFloat where
  | finite : Q → PyFloat
  | inf : Bool → PyFloat
  | nan : PyFloat
deriving DecidableEq

/-- The scalar inputs of `clean_number` with Python's int/float distinction
kept: `json.loads` yields arbitrary-precision ints for JSON integers and
doubles for JSON reals, and `float(value)` at line 83 treats the two
differently on overflow. -/
inductive PyScalar where
  | none : PyScalar
  | int : ℤ → PyScalar
  | float : PyFloat → PyScalar
  | str : String → PyScalar
deriving DecidableEq

/-- Python truthiness `not value` on `PyScalar` (`inf` and `nan` are
truthy). -/
def falsyScalar : PyScalar → Bool
  | PyScalar.none => true
  | PyScalar.int n => n = 0
  | PyScalar.float f => f = PyFloat.finite Q.zero
  | PyScalar.str s => s = ""

/-- The overflow threshold of conversion to an IEEE double: a real with
magnitude at least `2^1024 - 2^970` (half an ulp above the largest finite
double `2^1024 - 2^971`) rounds to infinity under round-to-nearest-even. -/
def overflowBound : ℕ := 2 ^ 1024 - 2 ^ 970

/-- Whether the exact rational lies beyond the finite double range. -/
def Q.overflows (q : Q) : Bool := overflowBound * q.den ≤ q.num.natAbs

/-- Outcome of `clean_number`: a returned float, or the `OverflowError`
escaping from `float(value)` at line 83, which sits outside the `try`. -/
inductive CleanResult where
  | ok : PyFloat → CleanResult
  | overflowError : CleanResult
deriving DecidableEq

/-- Refined embedding of `clean_number` (succes.py, lines 81-86) keeping
the overflow behaviour of both `float(...)` conversions: an int beyond the
double range raises `OverflowError` at line 83 (uncaught — line 83 is
outside the `try`), a float is returned verbatim (finite, infinite or nan),
and a stripped string whose decimal value exceeds the double range is
converted by `float(clean_str)` to an infinity of its sign (no exception),
which `clean_number` then returns.  In-range conversions are kept exact,
as everywhere in this development. -/
def clean_number_checked (v : PyScalar) : CleanResult :=
  if falsyScalar v then CleanResult.ok (PyFloat.finite Q.zero)
  else
    match v with
    | PyScalar.none => CleanResult.ok (PyFloat.finite Q.zero)
    | PyScalar.int n =>
        if Q.overflows ⟨n, 1⟩ then CleanResult.overflowError
        else CleanResult.ok (PyFloat.finite ⟨n, 1⟩)
    | PyScalar.float f => CleanResult.ok f
    | PyScalar.str s =>
        match parseFloatStripped (stripNonNumeric s) with
        | some q =>
            CleanResult.ok
              (if Q.overflows q then PyFloat.inf (q.num < 0) else PyFloat.finite q)
        | Option.none => CleanResult.ok (PyFloat.finite Q.zero)

example : clean_number_checked (PyScalar.str "N/A") =
    CleanResult.ok (PyFloat.finite Q.zero) := by decide
example : clean_number_checked (PyScalar.int 830000) =
    CleanResult.ok (PyFloat.finite ⟨830000, 1⟩) := by decide
example : clean_number_checked (PyScalar.float (PyFloat.inf true)) =
    CleanResult.ok (PyFloat.inf true) := by decide

/-- Rounds to the nearest integer, ties to even — the rounding used by
Python's `round` and its fixed-point string formatting. -/
def Q.roundHalfEven (q : Q) : ℤ :=
  let f := q.num.fdiv (q.den : ℤ)
  let twice := 2 * (q.num - f * (q.den : ℤ))
  if twice < (q.den : ℤ) then f
  else if twice > (q.den : ℤ) then f + 1
  else if f % 2 = 0 then f else f + 1

/-- Embeds Python `round(x, 2)`: round to 2 decimal places, ties to even. -/
def round2 (q : Q) : Q := Q.norm (Q.roundHalfEven (q.mul (Q.ofNat 100)) ) 100

/-- Embeds the Python f-string `f"{x:.2f}"`: fixed two-decimal rendering of
a number, rounding ties to even, with a minus sign for negative inputs. -/
def formatFixed2 (q : Q) : String :=
  let n := Q.roundHalfEven (q.mul (Q.ofNat 100))
  let a := n.natAbs
  let body := toString (a / 100) ++ "." ++ (if a % 100 < 10 then "0" else "") ++ toString (a % 100)
  if q.num < 0 then "-" ++ body else body

example : formatFixed2 ⟨1, 1⟩ = "1.00" := by decide
example : formatFixed2 ⟨1, 2⟩ = "0.50" := by decide
example : formatFixed2 Q.zero = "0.00" := by decide
example : round2 ⟨10, 3⟩ = ⟨333, 100⟩ := by decide

/-- Embeds Python `str.strip()`: removes leading and trailing whitespace. -/
def pyStrip (s : String) : String :=
  String.mk (((s.toList.dropWhile Char.isWhitespace).reverse.dropWhile Char.isWhitespace).reverse)

/-- One cell of an output row: a string, a number, or the missing-value
marker `nan` that pandas inserts for absent columns. -/
inductive Cell where
  | str : String → Cell
  | num : Q → Cell
  | nan : Cell
deriving DecidableEq

/-- One flat output row, as the ordered key-value dictionary built in
`flatten_to_excel_rows` (succes.py, lines 197-214). -/
abbrev Row := List (String × Cell)

/-- The `shipping_bill_header` object of the hierarchical JSON: the fields
that `flatten_to_excel_rows` reads from it, all optional. -/
structure Header where
  sb_no : Option String := Option.none
  sb_date : Option String := Option.none
  leo_date : Option String := Option.none
  port_code : Option String := Option.none
  customer_name : Option String := Option.none
  country : Option String := Option.none
deriving DecidableEq

/-- One entry of an invoice's `items` array: the fields read by
`flatten_to_excel_rows`, all optional; numeric-looking fields are untyped
(`PyVal`). -/
structure Item where
  hs_code : Option String := Option.none
  product_group : Option String := Option.none
  qty : Option PyVal := Option.none
  unit : Option String := Option.none
  fob_value_inr : Option PyVal := Option.none
  drawback_receivable : Option PyVal := Option.none
  rodtep_receivable : Option PyVal := Option.none
deriving DecidableEq

/-- One entry of the `invoices` array: the fields read by
`flatten_to_excel_rows`, all optional. -/
structure Invoice where
  final_invoice_no : Option String := Option.none
  incoterms : Option String := Option.none
  currency_of_export : Option String := Option.none
  custom_exchange_rate : Option PyVal := Option.none
  items : Option (List Item) := Option.none
deriving DecidableEq

/-- The hierarchical JSON object passed to `flatten_to_excel_rows`; a
missing key is `Option.none`, exactly as `dict.get` sees it. -/
structure HierarchicalData where
  shipping_bill_header : Option Header := Option.none
  invoices : Option (List Invoice) := Option.none
deriving DecidableEq

/-- Value of `d.get(key)` for an untyped field: the stored value, or
Python `None` when the key is missing. -/
def optVal (o : Option PyVal) : PyVal := o.getD PyVal.none

/-- The dead local `item_count = len(items) if len(items) > 0 else 1`
computed (but never used) at line 173 of succes.py. -/
def item_count (items : List Item) : ℕ :=
  if items.length > 0 then items.length else 1

/-- Builds the output row for one item (the body of the `for item in items`
loop, succes.py lines 178-215): normalizes the numeric fields, computes the
guarded derived quantities, and emits the ordered 27-key dictionary. -/
def mkRow (header : Header) (inv : Invoice) (ex_rate : Q) (currency : String)
    (item : Item) : Row :=
  let fob_inr := clean_number (optVal item.fob_value_inr)
  let qty := clean_number (optVal item.qty)
  let dbk_amt := clean_number (optVal item.drawback_receivable)
  let rodtep_amt := clean_number (optVal item.rodtep_receivable)
  let fob_fc := if ex_rate.isPos then fob_inr.div ex_rate else Q.zero
  let rodtep_pct := if fob_inr.isPos then (rodtep_amt.div fob_inr).mul (Q.ofNat 100) else Q.zero
  let dbk_pct := if fob_inr.isPos then (dbk_amt.div fob_inr).mul (Q.ofNat 100) else Q.zero
  let description := pyStrip (item.product_group.getD "")
  let final_scheme := "DRAWBACK"
  let product_group_val := description
  let sb_type := description
  [("Sr. No.", Cell.str ""),
   ("SB NO.", Cell.str (header.sb_no.getD "")),
   ("S/B Date", Cell.str (header.sb_date.getD "")),
   ("LEO Date", Cell.str (header.leo_date.getD "")),
   ("Customer Name", Cell.str (header.customer_name.getD "")),
   ("Final Invoice No.", Cell.str (inv.final_invoice_no.getD "")),
   ("SB – Solar / Other Goods", Cell.str sb_type),
   ("Port Code", Cell.str (header.port_code.getD "")),
   ("Incoterms", Cell.str (inv.incoterms.getD "")),
   ("Country", Cell.str (header.country.getD "")),
   ("H.S. ITC (HS Code)", Cell.str (item.hs_code.getD "")),
   ("Product Group", Cell.str product_group_val),
   ("Qty", Cell.num qty),
   ("Unit", Cell.str (item.unit.getD "")),
   ("FOB Value Declared by Us (S/B) in FC", Cell.num (round2 fob_fc)),
   ("Currency of Export", Cell.str currency),
   ("Custom Exchange Rate (in FC)", Cell.num ex_rate),
   ("LEO Date Exchange Rate (in FC)", Cell.num ex_rate),
   ("FOB Value as per SB in INR", Cell.num (round2 fob_inr)),
   ("FOB Value as per LEO Ex. Rate in INR", Cell.num (round2 fob_inr)),
   ("Scheme (ADV/DFIA/Drawback)", Cell.str final_scheme),
   ("DBK %", Cell.str (formatFixed2 dbk_pct)),
   ("Drawback Receivable on FOB", Cell.num (round2 dbk_amt)),
   ("RoDTEP %", Cell.str (formatFixed2 rodtep_pct)),
   ("RoDTEP Receivable", Cell.num (round2 rodtep_amt)),
   ("RoDTEP Y/N", Cell.str (if rodtep_amt.isPos then "Yes" else "No")),
   ("Balance RoDTEP", Cell.num (round2 rodtep_amt))]

/-- The rows one invoice contributes: the per-invoice part of the loop in
`flatten_to_excel_rows` (succes.py lines 171-215).  Note the source
iterates `for item in items` directly, so an empty `items` list contributes
no rows. -/
def flattenInvoice (header : Header) (inv : Invoice) : List Row :=
  let items := inv.items.getD []
  let ex_rate := clean_number (optVal inv.custom_exchange_rate)
  let currency := inv.currency_of_export.getD "USD"
  items.map (mkRow header inv ex_rate currency)

/-- Embeds `flatten_to_excel_rows` (succes.py, lines 166-216). -/
def flatten_to_excel_rows (d : HierarchicalData) : List Row :=
  let header := d.shipping_bill_header.getD {}
  let invoices := d.invoices.getD []
  (invoices.map (flattenInvoice header)).flatten

/-- The canonical output column list `FINAL_COLUMNS`
(succes.py, lines 20-48). -/
def FINAL_COLUMNS : List String :=
  ["Sr. No.",
   "SB NO.",
   "S/B Date",
   "LEO Date",
   "Customer Name",
   "Final Invoice No.",
   "SB – Solar / Other Goods",
   "Port Code",
   "Incoterms",
   "Country",
   "H.S. ITC (HS Code)",
   "Product Group",
   "Qty",
   "Unit",
   "FOB Value Declared by Us (S/B) in FC",
   "Currency of Export",
   "Custom Exchange Rate (in FC)",
   "LEO Date Exchange Rate (in FC)",
   "FOB Value as per SB in INR",
   "FOB Value as per LEO Ex. Rate in INR",
   "Scheme (ADV/DFIA/Drawback)",
   "DBK %",
   "Drawback Receivable on FOB",
   "RoDTEP %",
   "RoDTEP Receivable",
   "RoDTEP Y/N",
   "Balance RoDTEP"]

/-- The accumulated `all_data` list of `process_files`: per-document rows
concatenated in document order (succes.py, lines 398-410); documents whose
extraction failed upstream are simply absent from the input list. -/
def allRows (docs : List HierarchicalData) : List Row :=
  (docs.map flatten_to_excel_rows).flatten

/-- Adds the keys of one row to a column list, keeping first-appearance
order — how `pd.DataFrame(all_data)` forms its columns. -/
def insertCols (acc : List String) (r : Row) : List String :=
  r.foldl (fun a kv => if a.contains kv.1 then a else a ++ [kv.1]) acc

/-- The DataFrame's columns: union of row keys in first-appearance order. -/
def dfColumns (rows : List Row) : List String := rows.foldl insertCols []

/-- Embeds `safe_columns = [c for c in FINAL_COLUMNS if c in df.columns]`
(succes.py, line 416). -/
def safe_columns (rows : List Row) : List String :=
  FINAL_COLUMNS.filter (fun c => (dfColumns rows).contains c)

/-- A row's value in a column, with pandas' `NaN` for a missing key. -/
def cellAt (r : Row) (c : String) : Cell := (List.lookup c r).getD Cell.nan

/-- Embeds the column projection `df = df[safe_columns]` for one row. -/
def projectRow (cols : List String) (r : Row) : Row := cols.map (fun c => (c, cellAt r c))

/-- Embeds the effect of `df["Sr. No."] = range(1, len(df) + 1)` on one
row: overwrite the `Sr. No.` column where present, append it otherwise. -/
def setSrNo (n : ℕ) (r : Row) : Row :=
  if r.any (fun kv => kv.1 = "Sr. No.") then
    r.map (fun kv => if kv.1 = "Sr. No." then (kv.1, Cell.num (Q.ofNat n)) else kv)
  else r ++ [("Sr. No.", Cell.num (Q.ofNat n))]

/-- Assigns consecutive serial numbers starting at `n`. -/
def assignSrNo (n : ℕ) : List Row → List Row
  | [] => []
  | r :: rs => setSrNo n r :: assignSrNo (n + 1) rs

/-- Embeds the record-assembly tail of `process_files` (succes.py, lines
398-418): concatenate all rows, project to the canonical columns, assign
`Sr. No.` as 1..N; an empty accumulation yields no dataset (the error
branch). -/
def process_files (docs : List HierarchicalData) : Option (List Row) :=
  let data := allRows docs
  if data.isEmpty then Option.none
  else some (assignSrNo 1 (data.map (projectRow (safe_columns data))))

/-! Concrete documents used to instantiate the theorems below. -/

/-- A document with one invoice whose `items` array is empty. -/
def emptyItemsDoc : HierarchicalData :=
  { shipping_bill_header := some {}, invoices := some [{ items := some [] }] }

/-- A document with one invoice whose export currency is present but empty. -/
def emptyCurrencyDoc : HierarchicalData :=
  { shipping_bill_header := some {},
    invoices := some [{ currency_of_export := some "", items := some [{}] }] }

/-- A header-less document with one invoice holding one (empty) item. -/
def oneItemDoc : HierarchicalData :=
  { invoices := some [{ items := some [{}] }] }

/-- The document of end-to-end scenario 1: one invoice (rate 83, currency
USD) with one item (fob_inr 830000, qty 100, dbk 8300, rodtep 4150). -/
def scenarioOneDoc : HierarchicalData :=
  { shipping_bill_header := some {},
    invoices := some [{
      custom_exchange_rate := some (PyVal.num ⟨83, 1⟩),
      currency_of_export := some "USD",
      items := some [{
        fob_value_inr := some (PyVal.num ⟨830000, 1⟩),
        qty := some (PyVal.num ⟨100, 1⟩),
        drawback_receivable := some (PyVal.num ⟨8300, 1⟩),
        rodtep_receivable := some (PyVal.num ⟨4150, 1⟩) }] }] }

/-- C2: the claim says `clean_number` never raises and always returns a
finite float, but the code violates its own guarantee on inputs beyond the
double range — `float(value)` at line 83 sits outside the `try`, so the
integer `10^400` (reachable as a JSON integer) raises an uncaught
`OverflowError`, and the 401-digit string `"1" ++ 400 zeros` strips and
parses to a value that `float(clean_str)` converts to the non-finite
`inf`, which is returned. -/
theorem clean_number_not_total :
    clean_number_checked (PyScalar.int ((10 ^ 400 : ℕ) : ℤ)) =
      CleanResult.overflowError ∧
    clean_number_checked (PyScalar.str (String.mk ('1' :: List.replicate 400 '0'))) =
      CleanResult.ok (PyFloat.inf false) := by decide

/-- C8: `clean_number` maps `"₹1,234.50"` to 1234.50 (the exact rational
2469/2), `None` to 0, and `"N/A"` to 0. -/
theorem clean_number_examples :
    clean_number (PyVal.str "₹1,234.50") = ⟨2469, 2⟩ ∧
    (Q.mk 2469 2).val = (2469 : ℚ) / 2 ∧
    clean_number PyVal.none = Q.zero ∧
    clean_number (PyVal.str "N/A") = Q.zero :=
  ⟨by decide, by norm_num [Q.val], by decide, by decide⟩

/-- C1: the claim says an invoice with an empty `items` sequence still
produces one row.  The code computes the dead local `item_count`
(`max(1, len(items))`, line 173) but then iterates `for item in items`
directly, so an empty-items invoice contributes zero rows: on a document
with exactly one invoice whose `items` is empty, flatten emits no row at
all, while `item_count` of that invoice is 1. -/
theorem flatten_drops_empty_items_invoice :
    flatten_to_excel_rows emptyItemsDoc = [] ∧ item_count [] = 1 := by decide

/-- C5: end-to-end scenario 1 — one row with fob_fc 10000, DBK % "1.00",
RoDTEP % "0.50" and RoDTEP Y/N "Yes". -/
theorem scenario_one :
    (flatten_to_excel_rows scenarioOneDoc).length = 1 ∧
    List.lookup "FOB Value Declared by Us (S/B) in FC"
      ((flatten_to_excel_rows scenarioOneDoc).headD []) = some (Cell.num ⟨10000, 1⟩) ∧
    List.lookup "DBK %" ((flatten_to_excel_rows scenarioOneDoc).headD []) =
      some (Cell.str "1.00") ∧
    List.lookup "RoDTEP %" ((flatten_to_excel_rows scenarioOneDoc).headD []) =
      some (Cell.str "0.50") ∧
    List.lookup "RoDTEP Y/N" ((flatten_to_excel_rows scenarioOneDoc).headD []) =
      some (Cell.str "Yes") := by decide

/-- C3 counterexample: on an invoice whose `Currency of export` key is
present with an empty value, the emitted row carries the empty string, not
the "USD" default the claim asserts for absent-or-empty values. -/
theorem currency_empty_not_defaulted :
    List.lookup "Currency of Export" ((flatten_to_excel_rows emptyCurrencyDoc).headD []) =
      some (Cell.str "") ∧
    List.lookup "Currency of Export" ((flatten_to_excel_rows emptyCurrencyDoc).headD []) ≠
      some (Cell.str "USD") := by decide

/-- C3 amended: every row of an invoice carries the invoice's export
currency verbatim, with "USD" substituted only when the key is absent
(`dict.get` default); a present-but-empty value is emitted as-is. -/
theorem currency_default_on_missing_key (header : Header) (inv : Invoice) (r : Row)
    (hr : r ∈ flattenInvoice header inv) :
    List.lookup "Currency of Export" r =
      some (Cell.str (inv.currency_of_export.getD "USD")) := by
  simp only [flattenInvoice, List.mem_map] at hr
  obtain ⟨item, -, rfl⟩ := hr
  rfl

/-- Witness for `currency_default_on_missing_key`: with the key absent the
emitted currency is "USD". -/
theorem currency_default_witness :
    List.lookup "Currency of Export"
      ((flattenInvoice {} { items := some [{}] }).headD []) = some (Cell.str "USD") :=
  currency_default_on_missing_key {} { items := some [{}] }
    ((flattenInvoice {} { items := some [{}] }).headD []) (by decide)

/-- The DBK % cell of a row, as computed by `mkRow`. -/
theorem lookup_dbk_pct (header : Header) (inv : Invoice) (ex_rate : Q) (currency : String)
    (item : Item) :
    List.lookup "DBK %" (mkRow header inv ex_rate currency item) =
      some (Cell.str (formatFixed2 (if (clean_number (optVal item.fob_value_inr)).isPos
        then ((clean_number (optVal item.drawback_receivable)).div
          (clean_number (optVal item.fob_value_inr))).mul (Q.ofNat 100)
        else Q.zero))) := rfl

/-- The RoDTEP % cell of a row, as computed by `mkRow`. -/
theorem lookup_rodtep_pct (header : Header) (inv : Invoice) (ex_rate : Q) (currency : String)
    (item : Item) :
    List.lookup "RoDTEP %" (mkRow header inv ex_rate currency item) =
      some (Cell.str (formatFixed2 (if (clean_number (optVal item.fob_value_inr)).isPos
        then ((clean_number (optVal item.rodtep_receivable)).div
          (clean_number (optVal item.fob_value_inr))).mul (Q.ofNat 100)
        else Q.zero))) := rfl

/-- The FOB-in-FC cell of a row, as computed by `mkRow`. -/
theorem lookup_fob_fc (header : Header) (inv : Invoice) (ex_rate : Q) (currency : String)
    (item : Item) :
    List.lookup "FOB Value Declared by Us (S/B) in FC" (mkRow header inv ex_rate currency item) =
      some (Cell.num (round2 (if ex_rate.isPos
        then (clean_number (optVal item.fob_value_inr)).div ex_rate
        else Q.zero))) := rfl

/-- C4: flatten is division-safe — with a zero exchange rate the emitted
FOB-in-FC cell is 0 whatever the FOB-in-INR value, and with a zero
FOB-in-INR both percentage cells render as "0.00" whatever the receivable
amounts; the guards make the divisions unreachable, so no division by zero
occurs. -/
theorem flatten_division_safe (header : Header) (inv : Invoice) (ex_rate : Q)
    (currency : String) (item : Item) :
    (ex_rate = Q.zero →
      List.lookup "FOB Value Declared by Us (S/B) in FC"
        (mkRow header inv ex_rate currency item) = some (Cell.num Q.zero)) ∧
    (clean_number (optVal item.fob_value_inr) = Q.zero →
      List.lookup "DBK %" (mkRow header inv ex_rate currency item) =
        some (Cell.str "0.00") ∧
      List.lookup "RoDTEP %" (mkRow header inv ex_rate currency item) =
        some (Cell.str "0.00")) := by
  constructor
  · intro h
    subst h
    rw [lookup_fob_fc, if_neg (by decide : ¬ (Q.zero.isPos = true))]
    decide
  · intro h
    constructor
    · rw [lookup_dbk_pct, h, if_neg (by decide : ¬ (Q.zero.isPos = true))]
      decide
    · rw [lookup_rodtep_pct, h, if_neg (by decide : ¬ (Q.zero.isPos = true))]
      decide

/-- Witness for `flatten_division_safe`: an all-absent item under a zero
exchange rate yields a zero FOB-in-FC cell and "0.00" percentage cells. -/
theorem flatten_division_safe_witness :
    List.lookup "FOB Value Declared by Us (S/B) in FC"
      (mkRow {} {} Q.zero "USD" {}) = some (Cell.num Q.zero) ∧
    List.lookup "DBK %" (mkRow {} {} Q.zero "USD" {}) = some (Cell.str "0.00") :=
  ⟨(flatten_division_safe {} {} Q.zero "USD" {}).1 rfl,
   ((flatten_division_safe {} {} Q.zero "USD" {}).2 (by decide)).1⟩

/-- C9: in every emitted row the LEO-labelled cells are copies — the
FOB-as-per-LEO-rate cell equals the FOB-as-per-SB cell and the LEO-date
exchange-rate cell equals the custom exchange-rate cell; no separate LEO
computation exists in `flatten_to_excel_rows`. -/
theorem leo_fields_mirror (d : HierarchicalData) (r : Row)
    (hr : r ∈ flatten_to_excel_rows d) :
    List.lookup "FOB Value as per LEO Ex. Rate in INR" r =
      List.lookup "FOB Value as per SB in INR" r ∧
    List.lookup "LEO Date Exchange Rate (in FC)" r =
      List.lookup "Custom Exchange Rate (in FC)" r := by
  simp only [flatten_to_excel_rows, List.mem_flatten, List.mem_map] at hr
  obtain ⟨l, ⟨inv, -, rfl⟩, hr⟩ := hr
  simp only [flattenInvoice, List.mem_map] at hr
  obtain ⟨item, -, rfl⟩ := hr
  exact ⟨rfl, rfl⟩

/-- Witness for `leo_fields_mirror` on a concrete one-item document. -/
theorem leo_fields_mirror_witness :
    List.lookup "FOB Value as per LEO Ex. Rate in INR"
      ((flatten_to_excel_rows oneItemDoc).headD []) =
      List.lookup "FOB Value as per SB in INR"
        ((flatten_to_excel_rows oneItemDoc).headD []) ∧
    List.lookup "LEO Date Exchange Rate (in FC)"
      ((flatten_to_excel_rows oneItemDoc).headD []) =
      List.lookup "Custom Exchange Rate (in FC)"
        ((flatten_to_excel_rows oneItemDoc).headD []) :=
  leo_fields_mirror oneItemDoc ((flatten_to_excel_rows oneItemDoc).headD []) (by decide)

/-- C10: `flatten_to_excel_rows` is total on its dictionary input — a
missing `invoices` key yields the empty row list, and a missing
`shipping_bill_header` key (and likewise any missing header sub-field)
yields rows whose header-derived cells are empty strings. -/
theorem flatten_total_on_missing_keys (d : HierarchicalData) :
    (d.invoices = Option.none → flatten_to_excel_rows d = []) ∧
    (d.shipping_bill_header = Option.none →
      ∀ r ∈ flatten_to_excel_rows d,
        List.lookup "SB NO." r = some (Cell.str "") ∧
        List.lookup "S/B Date" r = some (Cell.str "") ∧
        List.lookup "LEO Date" r = some (Cell.str "") ∧
        List.lookup "Customer Name" r = some (Cell.str "") ∧
        List.lookup "Port Code" r = some (Cell.str "") ∧
        List.lookup "Country" r = some (Cell.str "")) := by
  constructor
  · intro h
    simp [flatten_to_excel_rows, h]
  · intro h r hr
    simp only [flatten_to_excel_rows, h, List.mem_flatten, List.mem_map, Option.getD] at hr
    obtain ⟨l, ⟨inv, -, rfl⟩, hr⟩ := hr
    simp only [flattenInvoice, List.mem_map] at hr
    obtain ⟨item, -, rfl⟩ := hr
    exact ⟨rfl, rfl, rfl, rfl, rfl, rfl⟩

/-- Witness for `flatten_total_on_missing_keys`: a fully empty document
flattens to no rows, and a header-less document emits empty header cells. -/
theorem flatten_total_witness :
    flatten_to_excel_rows {} = [] ∧
    List.lookup "SB NO." ((flatten_to_excel_rows oneItemDoc).headD []) =
      some (Cell.str "") :=
  ⟨(flatten_total_on_missing_keys {}).1 rfl,
   ((flatten_total_on_missing_keys oneItemDoc).2 rfl
     ((flatten_to_excel_rows oneItemDoc).headD []) (by decide)).1⟩

/-- Serial-number assignment preserves the row count. -/
theorem assignSrNo_length (n : ℕ) (rows : List Row) :
    (assignSrNo n rows).length = rows.length := by
  induction rows generalizing n with
  | nil => rfl
  | cons r rs ih => simp [assignSrNo, ih]

/-- Serial-number assignment acts pointwise: row `i` gets serial `n + i`. -/
theorem assignSrNo_get : ∀ (rows : List Row) (n i : ℕ) (h : i < rows.length)
    (h' : i < (assignSrNo n rows).length),
    (assignSrNo n rows).get ⟨i, h'⟩ = setSrNo (n + i) (rows.get ⟨i, h⟩)
  | [], _, i, h, _ => absurd h (by simp)
  | r :: rs, n, 0, _, _ => rfl
  | r :: rs, n, j + 1, h, h' => by
      have hj : j < rs.length := Nat.lt_of_succ_lt_succ h
      have hj' : j < (assignSrNo (n + 1) rs).length := by
        rw [assignSrNo_length]; exact hj
      have e1 : (assignSrNo n (r :: rs)).get ⟨j + 1, h'⟩ =
          (assignSrNo (n + 1) rs).get ⟨j, hj'⟩ := rfl
      rw [e1, assignSrNo_get rs (n + 1) j hj hj']
      have e2 : n + 1 + j = n + (j + 1) := by omega
      rw [e2]
      rfl

/-- Overwriting the serial column: the in-place branch. -/
theorem lookup_map_setkey_self (n : ℕ) (r : Row) :
    r.any (fun kv => kv.1 = "Sr. No.") = true →
    List.lookup "Sr. No."
      (r.map (fun kv => if kv.1 = "Sr. No." then (kv.1, Cell.num (Q.ofNat n)) else kv)) =
      some (Cell.num (Q.ofNat n)) := by
  induction r with
  | nil => intro h; simp at h
  | cons kv rest ih =>
    intro h
    obtain ⟨k, v⟩ := kv
    by_cases hk : k = "Sr. No."
    · subst hk
      simp [List.lookup]
    · simp only [List.any_cons, hk] at h
      have hbk : ("Sr. No." == k) = false := beq_eq_false_iff_ne.mpr (Ne.symm hk)
      simp only [List.map_cons]
      rw [if_neg hk]
      simp only [List.lookup, hbk]
      exact ih (by simpa using h)

/-- Appending the serial column: the missing-column branch. -/
theorem lookup_append_setkey_self (n : ℕ) (r : Row) :
    r.any (fun kv => kv.1 = "Sr. No.") = false →
    List.lookup "Sr. No." (r ++ [("Sr. No.", Cell.num (Q.ofNat n))]) =
      some (Cell.num (Q.ofNat n)) := by
  induction r with
  | nil => intro h; simp [List.lookup]
  | cons kv rest ih =>
    intro h
    simp only [List.any_cons, Bool.or_eq_false_iff, decide_eq_false_iff_not] at h
    have hbk : ("Sr. No." == kv.1) = false := beq_eq_false_iff_ne.mpr (Ne.symm h.1)
    simp only [List.cons_append, List.lookup, hbk]
    exact ih h.2

/-- After `setSrNo n`, the serial cell holds `n`. -/
theorem lookup_setSrNo_self (n : ℕ) (r : Row) :
    List.lookup "Sr. No." (setSrNo n r) = some (Cell.num (Q.ofNat n)) := by
  rw [setSrNo]
  by_cases hany : r.any (fun kv => kv.1 = "Sr. No.") = true
  · rw [if_pos hany]
    exact lookup_map_setkey_self n r hany
  · rw [if_neg hany]
    exact lookup_append_setkey_self n r (by revert hany; cases r.any (fun kv => kv.1 = "Sr. No.") <;> simp)

/-- Overwriting the serial column leaves every other column unread. -/
theorem lookup_map_setkey_other (n : ℕ) (r : Row) (c : String) (hc : c ≠ "Sr. No.") :
    List.lookup c
      (r.map (fun kv => if kv.1 = "Sr. No." then (kv.1, Cell.num (Q.ofNat n)) else kv)) =
      List.lookup c r := by
  induction r with
  | nil => rfl
  | cons kv rest ih =>
    obtain ⟨k, v⟩ := kv
    simp only [List.map_cons]
    by_cases hk : k = "Sr. No."
    · have hck : (c == k) = false := beq_eq_false_iff_ne.mpr (hk ▸ hc)
      rw [if_pos hk]
      simp only [List.lookup, hck, ih]
    · rw [if_neg hk]
      by_cases hck : (c == k) = true
      · simp only [List.lookup, hck]
      · have hckf : (c == k) = false := by revert hck; cases c == k <;> simp
        simp only [List.lookup, hckf, ih]

/-- Appending the serial column leaves every other column unread. -/
theorem lookup_append_setkey_other (n : ℕ) (r : Row) (c : String) (hc : c ≠ "Sr. No.") :
    List.lookup c (r ++ [("Sr. No.", Cell.num (Q.ofNat n))]) = List.lookup c r := by
  induction r with
  | nil =>
    have hbk : (c == "Sr. No.") = false := beq_eq_false_iff_ne.mpr hc
    simp [List.lookup, hbk]
  | cons kv rest ih =>
    by_cases hck : c = kv.1
    · simp [List.lookup, hck]
    · simp [List.lookup, hck, ih]

/-- After `setSrNo`, every column other than the serial is unchanged. -/
theorem lookup_setSrNo_other (n : ℕ) (r : Row) (c : String) (hc : c ≠ "Sr. No.") :
    List.lookup c (setSrNo n r) = List.lookup c r := by
  rw [setSrNo]
  by_cases hany : r.any (fun kv => kv.1 = "Sr. No.") = true
  · rw [if_pos hany]
    exact lookup_map_setkey_other n r c hc
  · rw [if_neg hany]
    exact lookup_append_setkey_other n r c hc

/-- C6: the assembled dataset has exactly one row per accumulated flat row,
in the same order (the concatenated per-document, per-invoice, per-item
order of `allRows`); row `i` carries `Sr. No.` `i + 1`, a dense 1-based
sequence, and every column other than `Sr. No.` is exactly the value of the
corresponding projected source row — `Sr. No.` is the only field changed
after row creation. -/
theorem assembly_order_and_serials (docs : List HierarchicalData) (df : List Row)
    (h : process_files docs = some df) :
    df.length = (allRows docs).length ∧
    ∀ (i : ℕ) (hi : i < df.length) (hi' : i < (allRows docs).length),
      List.lookup "Sr. No." (df.get ⟨i, hi⟩) = some (Cell.num (Q.ofNat (i + 1))) ∧
      ∀ c : String, c ≠ "Sr. No." →
        List.lookup c (df.get ⟨i, hi⟩) =
          List.lookup c (projectRow (safe_columns (allRows docs))
            ((allRows docs).get ⟨i, hi'⟩)) := by
  simp only [process_files] at h
  by_cases he : (allRows docs).isEmpty
  · rw [if_pos he] at h
    exact absurd h (by simp)
  · rw [if_neg he] at h
    have hdf : df =
        assignSrNo 1 ((allRows docs).map (projectRow (safe_columns (allRows docs)))) :=
      (Option.some.inj h).symm
    subst hdf
    constructor
    · rw [assignSrNo_length, List.length_map]
    · intro i hi hi'
      have him : i < ((allRows docs).map (projectRow (safe_columns (allRows docs)))).length := by
        rw [List.length_map]; exact hi'
      rw [assignSrNo_get _ 1 i him hi, List.get_map]
      constructor
      · rw [lookup_setSrNo_self]
        have e : 1 + i = i + 1 := Nat.add_comm 1 i
        rw [e]
      · intro c hc
        rw [lookup_setSrNo_other _ _ _ hc]

/-- Witness for `assembly_order_and_serials` on a one-document batch. -/
theorem assembly_order_and_serials_witness :
    List.lookup "Sr. No." (((process_files [oneItemDoc]).getD []).get ⟨0, by decide⟩) =
      some (Cell.num (Q.ofNat 1)) :=
  ((assembly_order_and_serials [oneItemDoc] ((process_files [oneItemDoc]).getD [])
    (by decide)).2 0 (by decide) (by decide)).1

/-- C7 counterexample: the canonical column list has 27 entries, not the
26 the claim states. -/
theorem final_columns_not_26 : FINAL_COLUMNS.length ≠ 26 := by decide

/-- C7 amended: record assembly projects to the fixed canonical 27-column
list — the retained columns form a subsequence of `FINAL_COLUMNS` (hence
appear in canonical order), a column is retained exactly when it is both
canonical and present in the accumulated data (so non-canonical fields are
dropped and absent canonical columns are omitted, never fabricated), and
every projected row consists of exactly the retained columns. -/
theorem projection_canonical (rows : List Row) :
    List.Sublist (safe_columns rows) FINAL_COLUMNS ∧
    FINAL_COLUMNS.length = 27 ∧
    (∀ c : String, c ∈ safe_columns rows ↔ c ∈ FINAL_COLUMNS ∧ c ∈ dfColumns rows) ∧
    (∀ r : Row, (projectRow (safe_columns rows) r).map Prod.fst = safe_columns rows) := by
  refine ⟨List.filter_sublist _, by decide, ?_, ?_⟩
  · intro c
    simp [safe_columns, List.mem_filter, List.elem_iff]
  · intro r
    have e : (Prod.fst ∘ fun c : String => (c, cellAt r c)) = id := rfl
    rw [projectRow, List.map_map, e, List.map_id]

end ShippingBill
